import Mathlib

/-!
Verification of the debris-detection orchestration pipeline
(franzenjb/debris-detection-hurricane-relief).

The development shallowly embeds the two orchestration code paths of the
repository:

* the Streamlit detection run of `src/app.py` (model load, per-prompt
  `sam.predict` loop with its silent `except` branch, the per-prompt and
  final `show_anns` renderings, and the CSV priority tiers), and
* `DebrisDetector.detect_debris_with_text` of `src/debris_detector.py`
  (default prompts, default output path, per-prompt mask saving, and the
  unguarded `raster_to_vector(all_masks[-1], output_path)` call, whose
  exception — raised on a no-foreground mask — propagates to the caller).

The external segmentation capability (LangSAM) is abstracted as a
deterministic stub function from (image, prompt, thresholds) to either a
list of detected regions or an error, exactly the interface both call
sites consume.  The vectorizer (`raster_to_vector`) is not part of the
repository; it is modelled from the specification further below.
-/

/-- Abstract identifier of one detected region (one box/mask component). -/
abbrev Region := Nat

/-- Outcome of one capability `predict` call: the detected regions on
success, an error message on failure (the Python code catches any
exception from the call). -/
inductive PredictResult where
  | ok (regions : List Region)
  | err (msg : String)
deriving DecidableEq

/-- `true` iff the capability call raised. -/
def PredictResult.isErr : PredictResult → Bool
  | .ok _ => false
  | .err _ => true

/-- A deterministic stub segmentation capability: a pure function of the
image path, the text prompt and the two confidence thresholds, mirroring
`LangSAM.predict(image, text_prompt, box_threshold, text_threshold)`. -/
structure Stub where
  predict : String → String → Rat → Rat → PredictResult

/-- Python `dict` assignment `d[k] = v`: overwrite the value in place if
the key is present (keeping its position), otherwise append. -/
def dictInsert {α : Type} (k : String) (v : α) : List (String × α) → List (String × α)
  | [] => [(k, v)]
  | (k₀, v₀) :: rest => if k₀ = k then (k, v) :: rest else (k₀, v₀) :: dictInsert k v rest

/-- Python `dict` lookup `d.get(k)`. -/
def dictLookup {α : Type} (k : String) : List (String × α) → Option α
  | [] => none
  | (k₀, v₀) :: rest => if k₀ = k then some v₀ else dictLookup k rest

/-- The prompt texts used by `app.py`. -/
def pPile : String := "pile of debris"
def pTrash : String := "trash pile"
def pRubble : String := "rubble"
def pConstr : String := "construction debris"
def pTarp : String := "blue tarp"
def pVehicle : String := "damaged vehicle"

/-- The display categories used by `app.py`. -/
def cPiles : String := "Debris Piles"
def cTrash : String := "Trash Piles"
def cRubble : String := "Rubble"
def cConstr : String := "Construction Debris"
def cTarps : String := "Blue Tarps"
def cVehicles : String := "Damaged Vehicles"

/-- `app.py` lines 569-579: expansion of the four sidebar toggles into the
ordered list of (prompt text, display category) pairs. -/
def prompts_to_run (debris rubble tarps vehicles : Bool) : List (String × String) :=
  (if debris then [(pPile, cPiles), (pTrash, cTrash)] else []) ++
  (if rubble then [(pRubble, cRubble), (pConstr, cConstr)] else []) ++
  (if tarps then [(pTarp, cTarps)] else []) ++
  (if vehicles then [(pVehicle, cVehicles)] else [])

/-- Replace spaces by underscores, as in `prompt.replace(' ', '_')`. -/
def underscored (s : String) : String :=
  String.mk (s.data.map (fun ch => if ch = ' ' then '_' else ch))

/-- Path of the per-prompt annotated image saved by `app.py` line 599. -/
def imagePathFor (prompt : String) : String :=
  "./output/detected_" ++ underscored prompt ++ ".png"

/-- The mutable state threaded through the `app.py` detection loop:
the capability's retained last prediction (`sam`'s internal boxes/masks
state, `none` before any successful `predict`), the `results` dict of
category counts, the `result_images` dict of per-category image paths,
and the trace of every `predict` invocation with the thresholds it
received. -/
structure RunState where
  sam : Option (List Region)
  results : List (String × Nat)
  images : List (String × String)
  trace : List (String × Rat × Rat)
deriving DecidableEq

/-- Fresh per-run state: `results = {}`, `result_images = {}` as set at
`app.py` lines 566-567; the capability state is whatever the
process-scoped `sam` object currently holds. -/
def initState (sam0 : Option (List Region)) : RunState :=
  ⟨sam0, [], [], []⟩

/-- The count a prompt contributes: `len(sam.boxes)` on success, and `0`
when the call raised (`except` branch, `app.py` line 613). -/
def contribution (stub : Stub) (img : String) (sens : Rat) (p : String × String) : Nat :=
  match stub.predict img p.1 sens sens with
  | .ok regions => regions.length
  | .err _ => 0

/-- One iteration of the `app.py` detection loop (lines 583-616): call
`sam.predict` with both thresholds equal to the sensitivity, then on
success store `results[display_name] = count`, remember the capability's
new state, and save a per-prompt annotated image when `count > 0`; on
failure store `results[display_name] = 0` and continue. -/
def runPrompt (stub : Stub) (img : String) (sens : Rat) (st : RunState)
    (p : String × String) : RunState :=
  let st₁ : RunState := { st with trace := st.trace ++ [(p.1, sens, sens)] }
  match stub.predict img p.1 sens sens with
  | .ok regions =>
      let count := regions.length
      { st₁ with
        sam := some regions
        results := dictInsert p.2 count st₁.results
        images := if count > 0 then dictInsert p.2 (imagePathFor p.1) st₁.images
                  else st₁.images }
  | .err _ =>
      { st₁ with results := dictInsert p.2 0 st₁.results }

/-- The whole `for i, (prompt, display_name) in enumerate(prompts_to_run)`
loop. -/
def runLoop (stub : Stub) (img : String) (sens : Rat) (st : RunState)
    (prompts : List (String × String)) : RunState :=
  prompts.foldl (runPrompt stub img sens) st

/-- Outcome of the detection script: either the model-load `except` branch
(`st.error(...); st.stop()`, `app.py` lines 559-561) or a completed run
with its results dict, per-category images, and the regions shown in the
final combined raster (`sam.show_anns` over the capability's state after
the loop). -/
inductive ScriptOutcome where
  | initError (msg : String)
  | done (results : List (String × Nat)) (images : List (String × String))
         (finalAnnotated : Option (List Region))
deriving DecidableEq

/-- The detection run of `app.py` (lines 549-640), from model load to the
final combined rendering, also returning the trace of every capability
invocation (prompt text and the two thresholds passed). -/
def runScript (init : Except String Stub) (img : String) (sens : Rat)
    (debris rubble tarps vehicles : Bool) :
    ScriptOutcome × List (String × Rat × Rat) :=
  match init with
  | .error e => (.initError e, [])
  | .ok stub =>
      let st := runLoop stub img sens (initState none)
        (prompts_to_run debris rubble tarps vehicles)
      (.done st.results st.images st.sam, st.trace)

/-- `total_detections = sum(st.session_state.results.values())`
(`app.py` line 657). -/
def totalCount (results : List (String × Nat)) : Nat :=
  (results.map Prod.snd).sum

/-- Priority tier of the CSV report row (`app.py` line 790):
`"High" if v > 5 else "Medium" if v > 2 else "Low"`. -/
def priority (v : Nat) : String :=
  if v > 5 then "High" else if v > 2 then "Medium" else "Low"

/-- Default text prompts of `detect_debris_with_text`
(`debris_detector.py` lines 77-87). -/
def defaultPrompts : List String :=
  ["debris pile", "construction debris", "storm debris", "waste pile",
   "rubble pile", "trash pile", "damaged materials", "hurricane debris"]

/-- Per-prompt intermediate mask path (`debris_detector.py` line 107). -/
def maskPath (outDir prompt : String) : String :=
  outDir ++ "/debris_" ++ underscored prompt ++ ".tif"

/-! ## Shared lemmas about the dict semantics and the detection loop -/

theorem dictLookup_dictInsert {α : Type} (k c : String) (v : α) (d : List (String × α)) :
    dictLookup c (dictInsert k v d) = if k = c then some v else dictLookup c d := by
  induction d with
  | nil => simp [dictInsert, dictLookup]
  | cons hd rest ih =>
      obtain ⟨k₀, v₀⟩ := hd
      by_cases hk : k₀ = k
      · subst hk
        by_cases hc : k₀ = c
        · subst hc; simp [dictInsert, dictLookup]
        · simp [dictInsert, dictLookup, hc]
      · by_cases hc : k₀ = c
        · subst hc
          have hkc : ¬ k = k₀ := fun h => hk h.symm
          simp [dictInsert, dictLookup, hk, hkc]
        · simp [dictInsert, dictLookup, hk, hc, ih]

theorem runLoop_nil (stub : Stub) (img : String) (sens : Rat) (st : RunState) :
    runLoop stub img sens st [] = st := rfl

theorem runLoop_cons (stub : Stub) (img : String) (sens : Rat) (st : RunState)
    (p : String × String) (rest : List (String × String)) :
    runLoop stub img sens st (p :: rest)
      = runLoop stub img sens (runPrompt stub img sens st p) rest := rfl

theorem runPrompt_results (stub : Stub) (img : String) (sens : Rat) (st : RunState)
    (p : String × String) :
    (runPrompt stub img sens st p).results
      = dictInsert p.2 (contribution stub img sens p) st.results := by
  cases hp : stub.predict img p.1 sens sens <;>
    simp [runPrompt, contribution, hp]

theorem runPrompt_trace (stub : Stub) (img : String) (sens : Rat) (st : RunState)
    (p : String × String) :
    (runPrompt stub img sens st p).trace = st.trace ++ [(p.1, sens, sens)] := by
  cases hp : stub.predict img p.1 sens sens <;>
    simp [runPrompt, hp]

theorem runPrompt_images (stub : Stub) (img : String) (sens : Rat) (st : RunState)
    (p : String × String) :
    (runPrompt stub img sens st p).images
      = if contribution stub img sens p > 0
        then dictInsert p.2 (imagePathFor p.1) st.images else st.images := by
  cases hp : stub.predict img p.1 sens sens <;>
    simp [runPrompt, contribution, hp]

/-- The results dict produced by the loop is a left fold of overwriting
dict assignments of each prompt's contribution. -/
def resultsFold (stub : Stub) (img : String) (sens : Rat)
    (d : List (String × Nat)) (prompts : List (String × String)) : List (String × Nat) :=
  prompts.foldl (fun d p => dictInsert p.2 (contribution stub img sens p) d) d

theorem runLoop_results (stub : Stub) (img : String) (sens : Rat) (st : RunState)
    (prompts : List (String × String)) :
    (runLoop stub img sens st prompts).results
      = resultsFold stub img sens st.results prompts := by
  induction prompts generalizing st with
  | nil => rfl
  | cons p rest ih =>
      rw [runLoop_cons, ih, runPrompt_results]
      rfl

theorem runLoop_trace (stub : Stub) (img : String) (sens : Rat) (st : RunState)
    (prompts : List (String × String)) :
    (runLoop stub img sens st prompts).trace
      = st.trace ++ prompts.map (fun p => (p.1, sens, sens)) := by
  induction prompts generalizing st with
  | nil => simp [runLoop_nil]
  | cons p rest ih =>
      rw [runLoop_cons, ih, runPrompt_trace]
      simp

theorem resultsFold_lookup (stub : Stub) (img : String) (sens : Rat)
    (d : List (String × Nat)) (prompts : List (String × String)) (c : String) :
    dictLookup c (resultsFold stub img sens d prompts)
      = match (prompts.filter (fun q => q.2 = c)).getLast? with
        | some p => some (contribution stub img sens p)
        | none => dictLookup c d := by
  induction prompts using List.reverseRecOn with
  | nil => rfl
  | append_singleton l a ih =>
      unfold resultsFold at *
      rw [List.foldl_append]
      simp only [List.foldl_cons, List.foldl_nil]
      rw [dictLookup_dictInsert, List.filter_append]
      by_cases ha : a.2 = c
      · simp [ha, List.getLast?_concat]
      · rw [if_neg ha]
        have hfa : List.filter (fun q => decide (q.2 = c)) [a] = [] := by simp [ha]
        rw [hfa, List.append_nil]
        exact ih

/-- The results, per-category images and invocation trace of the loop do
not depend on the capability state left over from a previous run: only the
`sam` component may differ. -/
theorem runLoop_state_independent (stub : Stub) (img : String) (sens : Rat)
    (st st' : RunState) (prompts : List (String × String))
    (hres : st.results = st'.results) (himg : st.images = st'.images)
    (htr : st.trace = st'.trace) :
    (runLoop stub img sens st prompts).results = (runLoop stub img sens st' prompts).results
    ∧ (runLoop stub img sens st prompts).images = (runLoop stub img sens st' prompts).images
    ∧ (runLoop stub img sens st prompts).trace = (runLoop stub img sens st' prompts).trace := by
  induction prompts generalizing st st' with
  | nil => exact ⟨hres, himg, htr⟩
  | cons p rest ih =>
      rw [runLoop_cons, runLoop_cons]
      apply ih
      · rw [runPrompt_results, runPrompt_results, hres]
      · rw [runPrompt_images, runPrompt_images, himg]
      · rw [runPrompt_trace, runPrompt_trace, htr]

/-! ## Concrete test fixtures used by closed theorems and witnesses -/

/-- An image path used as a fixed concrete input. -/
def imgTest : String := "img.tif"

/-- An output directory used as a fixed concrete input. -/
def outDirTest : String := "./output"

/-- A stub capability that always succeeds with zero regions. -/
def stubEmptyOk : Stub := ⟨fun _ _ _ _ => .ok []⟩

/-- A stub capability that always raises. -/
def stubAllErr : Stub := ⟨fun _ _ _ _ => .err ("boom")⟩

/-- A stub returning 3 regions for "pile of debris" and 2 for "trash
pile" (the two-prompts-one-category scenario of the spec). -/
def stubThreeTwo : Stub :=
  ⟨fun _ prompt _ _ =>
    if prompt = pPile then .ok [0, 1, 2]
    else if prompt = pTrash then .ok [3, 4]
    else .err ("unexpected")⟩

/-- Two prompts both mapped to the category "Debris Piles". -/
def samePrompts : List (String × String) := [(pPile, cPiles), (pTrash, cPiles)]

/-- A stub that raises on "rubble" and finds 4 regions for "construction
debris". -/
def stubRubbleFails : Stub :=
  ⟨fun _ prompt _ _ =>
    if prompt = pRubble then .err ("model error")
    else if prompt = pConstr then .ok [0, 1, 2, 3]
    else .err ("unexpected")⟩

/-- As `stubRubbleFails`, except that "rubble" succeeds with zero
regions instead of raising. -/
def stubRubbleZero : Stub :=
  ⟨fun _ prompt _ _ =>
    if prompt = pRubble then .ok []
    else if prompt = pConstr then .ok [0, 1, 2, 3]
    else .err ("unexpected")⟩

/-- The rubble prompts of the app catalog. -/
def rubblePrompts : List (String × String) := [(pRubble, cRubble), (pConstr, cConstr)]

/-- The prompt text "debris pile" of the detector's default list. -/
def dPile : String := "debris pile"

/-- Two default-list prompts used as an explicit prompt list. -/
def twoPrompts : List String := [dPile, pTrash]

/-- A stub for which "debris pile" and "trash pile" both succeed, with
distinct regions. -/
def stubTwoMasks : Stub :=
  ⟨fun _ prompt _ _ =>
    if prompt = dPile then .ok [1]
    else if prompt = pTrash then .ok [2]
    else .err ("unexpected")⟩

/-! ## Claim theorems -/

/-- C2 counterexample: a DetectionRequest whose two prompts "pile of
debris" and "trash pile" are both mapped to the category "Debris Piles",
against a stub returning 3 and 2 regions respectively, yields category
count 2 — the second assignment `results[display_name] = count`
overwrites the first — not the sum 5 the claim asserts. -/
theorem C2_overwrite_cex :
    dictLookup cPiles
        (runLoop stubThreeTwo imgTest 1 (initState none) samePrompts).results
      = some 2
    ∧ (2 : Nat) ≠ 3 + 2 := by
  constructor <;> decide

/-- C2 (amended): a category's count in the results dict equals the count
contributed by the LAST completed prompt mapped to that category — dict
assignment overwrites, it does not add.  (In the app's actual catalog
every prompt has a distinct display category, so there the count is that
single prompt's count.) -/
theorem C2_last_prompt_wins (stub : Stub) (img : String) (sens : Rat)
    (prompts : List (String × String)) (c : String) :
    dictLookup c (runLoop stub img sens (initState none) prompts).results
      = match (prompts.filter (fun q => q.2 = c)).getLast? with
        | some p => some (contribution stub img sens p)
        | none => none := by
  rw [runLoop_results, resultsFold_lookup]
  cases (prompts.filter (fun q => decide (q.2 = c))).getLast? <;> rfl

/-- C3 counterexample: a run in which "rubble" raises is observationally
identical — same results dict, same images, same capability state, same
trace — to a run in which "rubble" succeeded with zero regions, so the
failure is NOT recorded distinctly for audit; the second conjunct shows
the run nevertheless returned a full report. -/
theorem C3_failure_indistinct_cex :
    runLoop stubRubbleFails imgTest 1 (initState none) rubblePrompts
      = runLoop stubRubbleZero imgTest 1 (initState none) rubblePrompts
    ∧ (runLoop stubRubbleFails imgTest 1 (initState none) rubblePrompts).results
      = [(cRubble, 0), (cConstr, 4)] := by
  constructor <;> decide

/-- C3 (amended): when a prompt invocation raises, the run still returns a
DetectionReport: every prompt of the request is still invoked (the trace
lists them all, in order), and a category whose last mapped prompt failed
gets count exactly 0.  However the failure is recorded only as that zero
count — indistinguishable from a successful zero-region result (see the
counterexample), so there is no distinct audit record. -/
theorem C3_failure_tolerant (stub : Stub) (img : String) (sens : Rat)
    (prompts : List (String × String)) (c : String) (p : String × String) (m : String) :
    (runLoop stub img sens (initState none) prompts).trace
      = prompts.map (fun q => (q.1, sens, sens))
    ∧ ((prompts.filter (fun q => q.2 = c)).getLast? = some p →
       stub.predict img p.1 sens sens = .err m →
       dictLookup c (runLoop stub img sens (initState none) prompts).results = some 0) := by
  constructor
  · rw [runLoop_trace]; rfl
  · intro hlast herr
    rw [runLoop_results, resultsFold_lookup, hlast]
    simp [contribution, herr]

/-- Witness for C3: the amended theorem applied to the concrete failing
stub `stubRubbleFails` on the rubble prompts. -/
theorem C3_failure_tolerant_witness :
    (runLoop stubRubbleFails imgTest 1 (initState none) rubblePrompts).trace
      = rubblePrompts.map (fun q => (q.1, 1, 1))
    ∧ dictLookup cRubble
        (runLoop stubRubbleFails imgTest 1 (initState none) rubblePrompts).results
      = some 0 := by
  have h := C3_failure_tolerant stubRubbleFails imgTest 1 rubblePrompts cRubble
    (pRubble, cRubble) ("model error")
  exact ⟨h.1, h.2 (by decide) (by decide)⟩

/-- C4: when loading the segmentation capability fails, the run aborts
immediately with a distinct initialization-error outcome and an empty
invocation trace (no prompt is ever attempted); whereas with a loaded
capability the run always finishes as a `done` report, whatever the
per-prompt outcomes — so the two failure classes are surfaced by
different constructors. -/
theorem C4_init_failure_aborts (e img : String) (sens : Rat) (a b c d : Bool) :
    runScript (.error e) img sens a b c d = (.initError e, [])
    ∧ ∀ stub : Stub, ∃ res imgs fin tr,
        runScript (.ok stub) img sens a b c d = (.done res imgs fin, tr) := by
  exact ⟨rfl, fun stub => ⟨_, _, _, _, rfl⟩⟩

/-- C5: a request whose expanded prompt list is empty returns the empty
report — total count 0 — with an empty invocation trace (the capability's
predict is never called) and a normal `done` outcome, not an error. -/
theorem C5_empty_prompts_noop (stub : Stub) (img : String) (sens : Rat) (a b c d : Bool)
    (h : prompts_to_run a b c d = []) :
    runScript (.ok stub) img sens a b c d = (.done [] [] none, [])
    ∧ totalCount [] = 0 := by
  constructor
  · simp [runScript, h, runLoop_nil, initState]
  · rfl

/-- Witness for C5: all four category toggles deselected expand to the
empty prompt list, and the run is the empty-report no-op. -/
theorem C5_empty_prompts_noop_witness :
    runScript (.ok stubEmptyOk) imgTest 1 false false false false
      = (.done [] [] none, [])
    ∧ totalCount [] = 0 :=
  C5_empty_prompts_noop stubEmptyOk imgTest 1 false false false false rfl

/-- C6 counterexample: with sensitivity 2 — outside the claimed valid
range 0 < threshold ≤ 1 — the run does NOT raise a request-validation
error before invoking prompts: it completes normally and the trace shows
both capability invocations received the out-of-range value 2 verbatim
as both thresholds. -/
theorem C6_no_range_validation_cex :
    ¬ ((2 : Rat) ≤ 1)
    ∧ runScript (.ok stubEmptyOk) imgTest 2 true false false false
      = (.done [(cPiles, 0), (cTrash, 0)] [] (some []),
         [(pPile, 2, 2), (pTrash, 2, 2)]) := by
  constructor
  · norm_num
  · decide

/-- C6 (amended): every capability invocation of a run receives the
single sensitivity value verbatim as both its box and text thresholds —
unreinterpreted and unclamped; no range validation exists, so an
out-of-range sensitivity is forwarded to the capability rather than
raising a request-validation error (the UI slider merely bounds
interactive input to [0.10, 0.40]). -/
theorem C6_thresholds_verbatim (init : Except String Stub) (img : String) (sens : Rat)
    (a b c d : Bool) (p : String) (bt tt : Rat)
    (hmem : (p, bt, tt) ∈ (runScript init img sens a b c d).2) :
    bt = sens ∧ tt = sens := by
  cases init with
  | error e => simp [runScript] at hmem
  | ok stub =>
      simp only [runScript] at hmem
      rw [runLoop_trace] at hmem
      simp only [initState, List.nil_append, List.mem_map] at hmem
      obtain ⟨q, -, hqe⟩ := hmem
      injection hqe with h1 h23
      injection h23 with h2 h3
      exact ⟨h2.symm, h3.symm⟩

/-- Witness for C6: the amended theorem applied to an entry of the trace
of a concrete run (with out-of-range sensitivity 2, showing it reached
the capability unvalidated and unclamped). -/
theorem C6_thresholds_verbatim_witness : (2 : Rat) = 2 ∧ (2 : Rat) = 2 :=
  C6_thresholds_verbatim (.ok stubEmptyOk) imgTest 2 true false false false
    pPile 2 2 (by decide)

/-- C8: re-running the same DetectionRequest (same image, same prompts,
same sensitivity) against the same deterministic stub produces an
identical report, count for count — the results, per-category images and
invocation trace do not depend on the capability state `s₁`/`s₂` carried
over into the run (e.g. the state a first run left behind), so the
orchestration loop adds no nondeterminism of its own. -/
theorem C8_rerun_identical (stub : Stub) (img : String) (sens : Rat)
    (a b c d : Bool) (s₁ s₂ : Option (List Region)) :
    (runLoop stub img sens (initState s₁) (prompts_to_run a b c d)).results
      = (runLoop stub img sens (initState s₂) (prompts_to_run a b c d)).results
    ∧ (runLoop stub img sens (initState s₁) (prompts_to_run a b c d)).images
      = (runLoop stub img sens (initState s₂) (prompts_to_run a b c d)).images
    ∧ (runLoop stub img sens (initState s₁) (prompts_to_run a b c d)).trace
      = (runLoop stub img sens (initState s₂) (prompts_to_run a b c d)).trace :=
  runLoop_state_independent stub img sens (initState s₁) (initState s₂)
    (prompts_to_run a b c d) rfl rfl rfl

/-- C9: the derived priority tier of a CSV report row is a total function
of the category count: "High" exactly when count > 5, "Medium" exactly
when 2 < count ≤ 5, and "Low" exactly when count ≤ 2. -/
theorem C9_priority_tiers (v : Nat) :
    (priority v = "High" ↔ 5 < v)
    ∧ (priority v = "Medium" ↔ 2 < v ∧ v ≤ 5)
    ∧ (priority v = "Low" ↔ v ≤ 2) := by
  unfold priority
  by_cases h5 : v > 5
  · rw [if_pos h5]
    exact ⟨⟨fun _ => h5, fun _ => rfl⟩,
           ⟨fun h => absurd h (by decide), fun h => absurd h.2 (by omega)⟩,
           ⟨fun h => absurd h (by decide), fun h => absurd h (by omega)⟩⟩
  · by_cases h2 : v > 2
    · rw [if_neg h5, if_pos h2]
      exact ⟨⟨fun h => absurd h (by decide), fun h => absurd h (by omega)⟩,
             ⟨fun _ => ⟨h2, by omega⟩, fun _ => rfl⟩,
             ⟨fun h => absurd h (by decide), fun h => absurd h (by omega)⟩⟩
    · rw [if_neg h5, if_neg h2]
      exact ⟨⟨fun h => absurd h (by decide), fun h => absurd h (by omega)⟩,
             ⟨fun h => absurd h (by decide), fun h => absurd h.1 (by omega)⟩,
             ⟨fun _ => by omega, fun _ => rfl⟩⟩

/-! ## The Vectorizer

`raster_to_vector` is provided by the external samgeo library; only its
call sites are in the repository.  Modelled from the spec: `to_vector`
converts a georeferenced binary mask into polygons, "assigning each
connected foreground region its own polygon feature", and "fails with a
NoFeaturesError … when the mask contains no foreground pixels".  A mask
is a grid of booleans; connectivity is 4-adjacency between foreground
pixels, computed as the fixpoint of a neighbour-expansion step; the
polygon features are the connected components, i.e. the distinct
reachable sets of foreground pixels. -/

/-- A pixel position (row, column). -/
abbrev Cell := Nat × Nat

/-- 4-adjacency of two grid cells. -/
def adjacentB (c d : Cell) : Bool :=
  (c.1 = d.1 && (c.2 + 1 = d.2 || d.2 + 1 = c.2)) ||
  (c.2 = d.2 && (c.1 + 1 = d.1 || d.1 + 1 = c.1))

/-- A binary raster mask: rows of boolean pixels. -/
abbrev Mask := List (List Bool)

/-- The foreground cells of a mask, as a list. -/
def fgListOf (m : Mask) : List Cell :=
  (List.range m.length).flatMap (fun i =>
    (List.range (m.getD i []).length).filterMap (fun j =>
      if (m.getD i []).getD j false then some (i, j) else none))

/-- The foreground cells of a mask. -/
def fgCells (m : Mask) : Finset Cell := (fgListOf m).toFinset

/-- One neighbour-expansion step: add every foreground cell adjacent to
the current set. -/
def nbStep (m : Mask) (S : Finset Cell) : Finset Cell :=
  S ∪ (fgCells m).filter (fun c => ∃ d ∈ S, adjacentB d c = true)

/-- Number of expansion steps sufficient to reach the fixpoint. -/
def iterCount (m : Mask) : Nat := (fgCells m).card + 1

/-- All cells connected to `c` through foreground cells: the fixpoint of
neighbour expansion starting from `c`. -/
def reach (m : Mask) (c : Cell) : Finset Cell :=
  (nbStep m)^[iterCount m] {c}

theorem nbStep_infl (m : Mask) (S : Finset Cell) : S ⊆ nbStep m S :=
  Finset.subset_union_left

theorem nbStep_mono (m : Mask) {S T : Finset Cell} (h : S ⊆ T) :
    nbStep m S ⊆ nbStep m T := by
  intro x hx
  rw [nbStep, Finset.mem_union] at hx ⊢
  rcases hx with hx | hx
  · exact Or.inl (h hx)
  · right
    rw [Finset.mem_filter] at hx ⊢
    obtain ⟨hfg, d, hd, hadj⟩ := hx
    exact ⟨hfg, d, h hd, hadj⟩

theorem nbStep_subset_union (m : Mask) (S : Finset Cell) :
    nbStep m S ⊆ S ∪ fgCells m :=
  Finset.union_subset_union_right (Finset.filter_subset _ _)

theorem iterate_nbStep_subset (m : Mask) (c : Cell) (n : Nat) :
    (nbStep m)^[n] {c} ⊆ insert c (fgCells m) := by
  induction n with
  | zero => simp
  | succ n ih =>
      rw [Function.iterate_succ_apply']
      intro x hx
      rcases Finset.mem_union.mp (nbStep_subset_union m _ hx) with hx | hx
      · exact ih hx
      · exact Finset.mem_insert_of_mem hx

theorem subset_iterate_nbStep (m : Mask) (S : Finset Cell) (n : Nat) :
    S ⊆ (nbStep m)^[n] S := by
  induction n with
  | zero => simp
  | succ n ih =>
      rw [Function.iterate_succ_apply']
      exact ih.trans (nbStep_infl m _)

theorem iterate_nbStep_mono (m : Mask) {S T : Finset Cell} (h : S ⊆ T) (n : Nat) :
    (nbStep m)^[n] S ⊆ (nbStep m)^[n] T := by
  induction n with
  | zero => simpa
  | succ n ih =>
      rw [Function.iterate_succ_apply', Function.iterate_succ_apply']
      exact nbStep_mono m ih

theorem card_le_iterate_of_strict (m : Mask) (s : Finset Cell) (n : Nat)
    (h : ∀ k < n, (nbStep m)^[k] s ≠ (nbStep m)^[k + 1] s) :
    s.card + n ≤ ((nbStep m)^[n] s).card := by
  induction n with
  | zero => simp
  | succ n ih =>
      have h1 := ih (fun k hk => h k (Nat.lt_succ_of_lt hk))
      have hss : (nbStep m)^[n] s ⊆ (nbStep m)^[n + 1] s := by
        rw [Function.iterate_succ_apply']
        exact nbStep_infl m _
      have hne := h n (Nat.lt_succ_self n)
      have hlt : ((nbStep m)^[n] s).card < ((nbStep m)^[n + 1] s).card :=
        Finset.card_lt_card (HasSubset.Subset.ssubset_of_ne hss hne)
      omega

theorem exists_iterate_fix (m : Mask) (c : Cell) :
    ∃ k ≤ (insert c (fgCells m)).card,
      (nbStep m)^[k] {c} = (nbStep m)^[k + 1] {c} := by
  by_contra hcon
  push_neg at hcon
  have hstrict : ∀ k < (insert c (fgCells m)).card + 1,
      (nbStep m)^[k] {c} ≠ (nbStep m)^[k + 1] {c} :=
    fun k hk => hcon k (Nat.lt_succ_iff.mp hk)
  have h1 := card_le_iterate_of_strict m {c} ((insert c (fgCells m)).card + 1) hstrict
  have h2 : ((nbStep m)^[(insert c (fgCells m)).card + 1] {c}).card
      ≤ (insert c (fgCells m)).card :=
    Finset.card_le_card (iterate_nbStep_subset m c _)
  simp only [Finset.card_singleton] at h1
  omega

theorem iterate_stab (m : Mask) (s : Finset Cell) (k : Nat)
    (h : (nbStep m)^[k] s = (nbStep m)^[k + 1] s) (j : Nat) :
    (nbStep m)^[k + j] s = (nbStep m)^[k] s := by
  induction j with
  | zero => rfl
  | succ j ih =>
      have hkj : k + (j + 1) = (k + j) + 1 := rfl
      rw [hkj, Function.iterate_succ_apply', ih,
        ← Function.iterate_succ_apply' (nbStep m) k s]
      exact h.symm

theorem nbStep_reach_fixed (m : Mask) (c : Cell) :
    nbStep m (reach m c) = reach m c := by
  obtain ⟨k, hk, hfix⟩ := exists_iterate_fix m c
  have hkM : k ≤ iterCount m := by
    have := Finset.card_insert_le c (fgCells m)
    unfold iterCount
    omega
  have h1 : (nbStep m)^[iterCount m] {c} = (nbStep m)^[k] {c} := by
    have := iterate_stab m {c} k hfix (iterCount m - k)
    rwa [Nat.add_sub_cancel' hkM] at this
  unfold reach
  rw [h1, ← Function.iterate_succ_apply' (nbStep m) k {c}]
  exact hfix.symm

theorem mem_reach_self (m : Mask) (c : Cell) : c ∈ reach m c :=
  subset_iterate_nbStep m {c} (iterCount m) (Finset.mem_singleton_self c)

theorem reach_subset_of_mem (m : Mask) {c d : Cell} (h : d ∈ reach m c) :
    reach m d ⊆ reach m c := by
  have h1 : ({d} : Finset Cell) ⊆ reach m c := Finset.singleton_subset_iff.mpr h
  have h2 : (nbStep m)^[iterCount m] (reach m c) = reach m c :=
    Function.iterate_fixed (nbStep_reach_fixed m c) _
  calc reach m d = (nbStep m)^[iterCount m] {d} := rfl
    _ ⊆ (nbStep m)^[iterCount m] (reach m c) := iterate_nbStep_mono m h1 _
    _ = reach m c := h2

/-- The vectorizer's failure mode on an all-background mask. -/
inductive VecError where
  | noFeatures
deriving DecidableEq

/-- Modelled from the spec: `to_vector` of the Vectorizer (the
`raster_to_vector` capability call, not part of this repository's
sources): it raises `NoFeaturesError` when the mask has no foreground
pixels, and otherwise yields one polygon feature per connected
foreground region — here represented by the set of distinct connected
reachable sets of foreground cells. -/
def raster_to_vector (m : Mask) : Except VecError (Finset (Finset Cell)) :=
  if fgCells m = ∅ then .error .noFeatures
  else .ok ((fgCells m).image (fun c => reach m c))

/-- The caller pattern of `src/test_detection.py` lines 71-79: the
`raster_to_vector` call is wrapped in `try/except`, and an exception is
reported as zero detections while the run continues. -/
def vector_or_zero (m : Mask) : Nat :=
  match raster_to_vector m with
  | .error _ => 0
  | .ok fs => fs.card

/-- C7: the Vectorizer raises `NoFeaturesError` exactly on a mask with no
foreground pixels — and the caller's wrapper turns that into zero
detections rather than a propagated error — while a mask whose
foreground forms a single connected region (every foreground cell
reaches every other) vectorizes to exactly one polygon feature. -/
theorem C7_vectorizer (m₀ m₁ : Mask) :
    (fgCells m₀ = ∅ →
      raster_to_vector m₀ = .error .noFeatures ∧ vector_or_zero m₀ = 0)
    ∧ ((fgCells m₁).Nonempty →
       (∀ a ∈ fgCells m₁, ∀ b ∈ fgCells m₁, b ∈ reach m₁ a) →
       raster_to_vector m₁ = .ok ((fgCells m₁).image (fun c => reach m₁ c))
       ∧ ((fgCells m₁).image (fun c => reach m₁ c)).card = 1) := by
  constructor
  · intro h0
    constructor
    · simp [raster_to_vector, h0]
    · simp [vector_or_zero, raster_to_vector, h0]
  · intro hne hconn
    have hok : raster_to_vector m₁
        = .ok ((fgCells m₁).image (fun c => reach m₁ c)) := by
      simp [raster_to_vector, hne.ne_empty]
    refine ⟨hok, ?_⟩
    obtain ⟨c₀, hc₀⟩ := hne
    have himg : (fgCells m₁).image (fun c => reach m₁ c) = {reach m₁ c₀} := by
      apply Finset.ext
      intro x
      simp only [Finset.mem_image, Finset.mem_singleton]
      constructor
      · rintro ⟨a, ha, rfl⟩
        apply subset_antisymm
        · exact reach_subset_of_mem m₁ (hconn c₀ hc₀ a ha)
        · exact reach_subset_of_mem m₁ (hconn a ha c₀ hc₀)
      · intro hx
        exact ⟨c₀, hc₀, hx.symm⟩
    rw [himg, Finset.card_singleton]

/-- An all-background mask. -/
def maskZero : Mask := [[false, false]]

/-- A mask whose three foreground pixels form one connected region. -/
def maskOne : Mask := [[true, true], [false, true]]

/-- Witness for C7: the theorem applied to the concrete all-background
mask and to a concrete single-region mask. -/
theorem C7_vectorizer_witness :
    (raster_to_vector maskZero = .error .noFeatures ∧ vector_or_zero maskZero = 0)
    ∧ (raster_to_vector maskOne
        = .ok ((fgCells maskOne).image (fun c => reach maskOne c))
       ∧ ((fgCells maskOne).image (fun c => reach maskOne c)).card = 1) :=
  ⟨(C7_vectorizer maskZero maskOne).1 (by decide),
   (C7_vectorizer maskZero maskOne).2 (by decide) (by decide)⟩

/-! ## The debris detector's vectorized export

`detect_debris_with_text` saves one mask per successful prompt and then
feeds the LAST retained mask to `raster_to_vector`.  That call is
unguarded in the source (`debris_detector.py` line 118, unlike the
`try/except` around the same call in `src/test_detection.py` lines
71-79), so when the last retained mask holds zero detections the
vectorizer's `NoFeaturesError` propagates out of the function and the
output path is never returned. -/

instance {ε α : Type} [DecidableEq ε] [DecidableEq α] : DecidableEq (Except ε α) :=
  fun a b =>
    match a, b with
    | .error e, .error f =>
        if h : e = f then .isTrue (by rw [h]) else .isFalse (fun hc => h (by injection hc))
    | .ok x, .ok y =>
        if h : x = y then .isTrue (by rw [h]) else .isFalse (fun hc => h (by injection hc))
    | .error _, .ok _ => .isFalse (fun hc => Except.noConfusion hc)
    | .ok _, .error _ => .isFalse (fun hc => Except.noConfusion hc)

/-- The mask file `save_masks` writes for a prediction: one foreground
pixel per detected region, all-background when the prompt matched
nothing. -/
def maskOfRegions (rs : List Region) : Mask := [rs.map (fun _ => true)]

/-- Observable successful outcome of `detect_debris_with_text`: the
returned path, every file written, the paths of the retained per-prompt
masks (`all_masks`), and the single mask handed to `raster_to_vector`
(if any). -/
structure DetectOut where
  returned : String
  written : List String
  allMasks : List String
  vectorSource : Option String
deriving DecidableEq

/-- `DebrisDetector.detect_debris_with_text` (`debris_detector.py` lines
57-124): default the prompt list and the output path, run `predict` and
`save_masks` per prompt inside a `try` that appends the saved mask (its
path and the regions it marks) to `all_masks` on success and only warns
on failure, then — if any mask was retained — call
`raster_to_vector(all_masks[-1], output_path)` UNGUARDED: an exception
from it (`NoFeaturesError` when that last mask has no foreground pixels)
propagates to the caller, and only otherwise is `output_path`
returned. -/
def detect_debris_with_text (stub : Stub) (outDir img : String)
    (outputPath? : Option String) (textPrompts? : Option (List String))
    (bt tt : Rat) : Except VecError DetectOut :=
  let prompts := textPrompts?.getD defaultPrompts
  let outputPath := outputPath?.getD (outDir ++ "/debris_detected.geojson")
  let allMasks := prompts.foldl (fun acc p =>
      match stub.predict img p bt tt with
      | .ok regions => acc ++ [(maskPath outDir p, regions)]
      | .err _ => acc) ([] : List (String × List Region))
  match allMasks.getLast? with
  | none => .ok ⟨outputPath, [], [], none⟩
  | some last =>
      match raster_to_vector (maskOfRegions last.2) with
      | .error e => .error e
      | .ok _ => .ok ⟨outputPath, allMasks.map Prod.fst ++ [outputPath],
                      allMasks.map Prod.fst, some last.1⟩

/-- Whenever `detect_debris_with_text` returns (the vectorization step
did not raise), the returned path is the caller-supplied output path,
defaulted to `output_dir/"debris_detected.geojson"`. -/
theorem detect_returned (stub : Stub) (outDir img : String)
    (outputPath? : Option String) (textPrompts? : Option (List String)) (bt tt : Rat) :
    ∀ out : DetectOut,
      detect_debris_with_text stub outDir img outputPath? textPrompts? bt tt = .ok out →
      out.returned = outputPath?.getD (outDir ++ "/debris_detected.geojson") := by
  intro out h
  dsimp only [detect_debris_with_text] at h
  split at h
  · injection h with h'
    rw [← h']
  · split at h
    · injection h
    · injection h with h'
      rw [← h']

/-- When the capability raises for every prompt of the list, the
mask-collecting fold leaves its accumulator unchanged. -/
theorem foldl_masks_all_err (stub : Stub) (img outDir : String) (bt tt : Rat)
    (prompts : List String) (acc : List (String × List Region))
    (h : ∀ p ∈ prompts, (stub.predict img p bt tt).isErr = true) :
    prompts.foldl (fun acc p =>
        match stub.predict img p bt tt with
        | .ok regions => acc ++ [(maskPath outDir p, regions)]
        | .err _ => acc) acc = acc := by
  induction prompts generalizing acc with
  | nil => rfl
  | cons p rest ih =>
      have hp := h p (List.mem_cons_self p rest)
      rw [List.foldl_cons]
      cases hpred : stub.predict img p bt tt with
      | ok regions =>
          rw [hpred] at hp
          simp [PredictResult.isErr] at hp
      | err m =>
          simp only [hpred]
          exact ih acc (fun q hq => h q (List.mem_cons_of_mem p hq))

/-- C10 counterexample: with a single prompt that SUCCEEDS but matches
zero regions, the retained (and last) mask is all-background, the
unguarded `raster_to_vector` call raises `NoFeaturesError`, and
`detect_debris_with_text` does NOT return the output path — refuting
"always returns the output path".  The second conjunct shows this is not
the every-prompt-fails case: the prompt invocation itself did not
raise. -/
theorem C10_raises_on_zero_detection_cex :
    detect_debris_with_text stubEmptyOk outDirTest imgTest none (some [dPile]) 1 1
      = .error .noFeatures
    ∧ (stubEmptyOk.predict imgTest dPile 1 1).isErr = false := by
  constructor <;> decide

/-- C10 (amended): whenever `detect_debris_with_text` returns, it returns
the output path — the caller-supplied one, or
`output_dir/"debris_detected.geojson"` when none is given; in particular
when EVERY prompt invocation raises, no mask is retained, the
vectorization step is skipped, and the function returns the default path
having written no file at all (so no vector file exists at the returned
path).  Only when the last retained mask holds zero detections does the
unguarded `raster_to_vector` exception propagate instead of a return
(see the counterexample). -/
theorem C10_returns_output_path (stub : Stub) (outDir img : String)
    (outputPath? : Option String) (textPrompts? : Option (List String)) (bt tt : Rat) :
    (∀ out : DetectOut,
        detect_debris_with_text stub outDir img outputPath? textPrompts? bt tt = .ok out →
        out.returned = outputPath?.getD (outDir ++ "/debris_detected.geojson"))
    ∧ ((∀ p ∈ textPrompts?.getD defaultPrompts,
          (stub.predict img p bt tt).isErr = true) →
        detect_debris_with_text stub outDir img outputPath? textPrompts? bt tt
          = .ok ⟨outputPath?.getD (outDir ++ "/debris_detected.geojson"), [], [], none⟩)
    ∧ (∀ out : DetectOut,
        detect_debris_with_text stub outDir img outputPath? textPrompts? bt tt = .ok out →
        (∀ p ∈ textPrompts?.getD defaultPrompts,
          (stub.predict img p bt tt).isErr = true) →
        out.returned ∉ out.written) := by
  have hA := detect_returned stub outDir img outputPath? textPrompts? bt tt
  have hB : (∀ p ∈ textPrompts?.getD defaultPrompts,
        (stub.predict img p bt tt).isErr = true) →
      detect_debris_with_text stub outDir img outputPath? textPrompts? bt tt
        = .ok ⟨outputPath?.getD (outDir ++ "/debris_detected.geojson"), [], [], none⟩ := by
    intro hfail
    have hmasks := foldl_masks_all_err stub img outDir bt tt
      (textPrompts?.getD defaultPrompts) [] hfail
    dsimp only [detect_debris_with_text]
    rw [hmasks]
    rfl
  refine ⟨hA, hB, ?_⟩
  intro out hout hfail
  rw [hB hfail] at hout
  injection hout with h'
  rw [← h']
  exact List.not_mem_nil _

/-- Witness for C10: a stub that raises on every prompt, run with the
default prompt list and default output path: the function returns the
default path with nothing written, and that path is not among the
written files. -/
theorem C10_returns_output_path_witness :
    detect_debris_with_text stubAllErr outDirTest imgTest none none 1 1
      = .ok ⟨outDirTest ++ "/debris_detected.geojson", [], [], none⟩
    ∧ (⟨outDirTest ++ "/debris_detected.geojson", [], [], none⟩ : DetectOut).returned
        ∉ (⟨outDirTest ++ "/debris_detected.geojson", [], [], none⟩ : DetectOut).written := by
  have h := C10_returns_output_path stubAllErr outDirTest imgTest none none 1 1
  have hB := h.2.1 (by decide)
  exact ⟨hB, h.2.2 _ hB (by decide)⟩

/-- C1: evaluation at the failing input.  With a stub for which both
prompts "debris pile" and "trash pile" succeed (finding regions 1 and 2
respectively), `detect_debris_with_text` retains BOTH masks in
`all_masks`, yet hands only the LAST one (`all_masks[-1]`) to
`raster_to_vector` — the earlier retained mask is not part of the vector
output — and, on the app side, the final combined rendering after the
loop draws only the capability's state from the last `predict` (regions
[2]), not the union [1, 2] of the regions found by all prompts. -/
theorem C1_vectorizes_only_last_mask :
    detect_debris_with_text stubTwoMasks outDirTest imgTest none (some twoPrompts) 1 1
      = .ok ⟨outDirTest ++ "/debris_detected.geojson",
             [maskPath outDirTest dPile, maskPath outDirTest pTrash,
              outDirTest ++ "/debris_detected.geojson"],
             [maskPath outDirTest dPile, maskPath outDirTest pTrash],
             some (maskPath outDirTest pTrash)⟩
    ∧ maskPath outDirTest pTrash ≠ maskPath outDirTest dPile
    ∧ (runLoop stubTwoMasks imgTest 1 (initState none)
        [(dPile, cPiles), (pTrash, cTrash)]).sam = some [2]
    ∧ ([2] : List Region) ≠ [1, 2] := by
  refine ⟨by decide, by decide, by decide, by decide⟩
